import Mathlib

/-!
Shallow embedding of the client logic of `src/src/App.tsx` (email-automator):
the `apiCall` fetch wrapper, the localStorage-backed template / saved-sender
collections, and the client-side validation logic of the campaign panels.
JavaScript values appearing in response bodies are modelled by `JVal`;
machine strings are Lean `String`s (the code only does ASCII-level operations).
-/

/-- A JSON value as produced by `res.json()` in the browser. -/
inductive JVal where
  | jnull : JVal
  | jbool : Bool → JVal
  | jnum : Int → JVal
  | jstr : String → JVal
  | jarr : List JVal → JVal
  | jobj : List (String × JVal) → JVal

/-- JavaScript truthiness of a JSON value (`0`, `""`, `false`, `null` are falsy). -/
def truthy : JVal → Bool
  | .jnull => false
  | .jbool b => b
  | .jnum n => n != 0
  | .jstr s => s != ""
  | .jarr _ => true
  | .jobj _ => true

/-- Property lookup on a parsed JSON object: with duplicate keys,
`JSON.parse` keeps the last binding, so the last match wins. -/
def jsGet (fields : List (String × JVal)) (key : String) : Option JVal :=
  match fields with
  | [] => none
  | (k, v) :: rest =>
    match jsGet rest key with
    | some w => some w
    | none => if k == key then some v else none

mutual
/-- JavaScript `String(v)` conversion of a JSON value
(as applied by `new Error(msg)` to a non-string message). -/
def jsToString : JVal → String
  | .jnull => "null"
  | .jbool true => "true"
  | .jbool false => "false"
  | .jnum n => toString n
  | .jstr s => s
  | .jarr xs => String.intercalate "," (jsArrStrings xs)
  | .jobj _ => "[object Object]"

/-- Element strings for `Array.prototype.toString` (null elements print empty). -/
def jsArrStrings : List JVal → List String
  | [] => []
  | .jnull :: xs => "" :: jsArrStrings xs
  | x :: xs => jsToString x :: jsArrStrings xs
end

/-- Checker for a character-list beginning with a pattern. -/
def startsWithChars : List Char → List Char → Bool
  | [], _ => true
  | _ :: _, [] => false
  | p :: ps, c :: cs => p == c && startsWithChars ps cs

/-- Checker for a pattern occurring inside a character list
(the semantics of JavaScript `indexOf(pat) !== -1`). -/
def containsSub (pat : List Char) : List Char → Bool
  | [] => startsWithChars pat []
  | c :: rest => startsWithChars pat (c :: rest) || containsSub pat rest

/-- The content-type test of `apiCall`:
`contentType && contentType.indexOf("application/json") !== -1`. -/
def contentTypeIsJson : Option String → Bool
  | none => false
  | some s => containsSub "application/json".data s.data

/-- The body of a response after the parse step: either a JSON value or plain text. -/
inductive Parsed where
  | json : JVal → Parsed
  | text : String → Parsed

/-- JavaScript `typeof data === 'object'` for a parsed body
(true for `null`, arrays and objects). -/
def isObjectType : Parsed → Bool
  | .json .jnull => true
  | .json (.jarr _) => true
  | .json (.jobj _) => true
  | _ => false

/-- The value of `data?.error`-style optional field access on the parsed body:
`none` models `undefined` (null and arrays have no such property). -/
def objField (data : Parsed) (key : String) : Option JVal :=
  match data with
  | .json (.jobj fields) => jsGet fields key
  | _ => none

/-- The truthy value of `typeof data === 'object' && data?.<key>`, when that
conjunction is truthy. -/
def objFieldTruthy (data : Parsed) (key : String) : Option JVal :=
  if isObjectType data then Option.filter truthy (objField data key) else none

/-- The truthy value of `typeof data === 'string' && data`. -/
def stringSelf : Parsed → Option String
  | .text s => if s == "" then none else some s
  | .json (.jstr s) => if s == "" then none else some s
  | _ => none

/-- The error-message extraction chain of `apiCall` for a non-ok response:
`(typeof data === 'object' && data?.error) || (typeof data === 'object' &&
data?.message) || (typeof data === 'string' && data) || serverError`. -/
def errorMessage (data : Parsed) (status : Nat) (statusText : String) : String :=
  match objFieldTruthy data "error" with
  | some v => jsToString v
  | none =>
    match objFieldTruthy data "message" with
    | some v => jsToString v
    | none =>
      match stringSelf data with
      | some s => s
      | none => "Server Error: " ++ toString status ++ " " ++ statusText

/-- JavaScript `Response.ok`: status in the 2xx range. -/
def resOk (status : Nat) : Bool := 200 ≤ status && status < 300

/-- A JavaScript error object as observed by the `catch` clause. -/
structure JsError where
  name : String
  message : String
deriving Repr, DecidableEq

/-- A fetch `Response` as consumed by `apiCall`: status line, the value of
`headers.get("content-type")`, the result of `res.json()` (which may reject),
and the result of `res.text()`. -/
structure FetchResponse where
  status : Nat
  statusText : String
  contentType : Option String
  jsonBody : Except JsError JVal
  textBody : String

/-- Outcome of the underlying `fetch` call: a response, or a rejection. -/
inductive FetchOutcome where
  | success : FetchResponse → FetchOutcome
  | failure : JsError → FetchOutcome

/-- Result of `apiCall` as seen by its caller: a returned parsed body, or a
thrown error. -/
inductive ApiResult where
  | ok : Parsed → ApiResult
  | error : JsError → ApiResult

/-- The parse step of `apiCall`: `res.json()` when the content type contains
`application/json` (propagating a parse rejection), `res.text()` otherwise. -/
def parseStep (res : FetchResponse) : Except JsError Parsed :=
  if contentTypeIsJson res.contentType then
    match res.jsonBody with
    | .ok v => .ok (.json v)
    | .error e => .error e
  else .ok (.text res.textBody)

/-- The `try` block of `apiCall`: fetch, parse, then either return the data or
throw an `Error` whose message is extracted by `errorMessage`. -/
def apiCallTry (outcome : FetchOutcome) : ApiResult :=
  match outcome with
  | .failure e => .error e
  | .success res =>
    match parseStep res with
    | .error e => .error e
    | .ok data =>
      if resOk res.status then .ok data
      else .error { name := "Error", message := errorMessage data res.status res.statusText }

/-- The fixed connectivity-failure message of `apiCall`. -/
def networkErrorMessage : String :=
  "Network Error: Could not connect to server. Check your internet connection or possible CORS issues."

/-- The `catch` clause of `apiCall`: errors whose message is exactly
"Failed to fetch" or whose name is "TypeError" are replaced by the fixed
network-error message; all other errors are rethrown unchanged. -/
def applyCatch (r : ApiResult) : ApiResult :=
  match r with
  | .ok d => .ok d
  | .error e =>
    if e.message == "Failed to fetch" || e.name == "TypeError" then
      .error { name := "Error", message := networkErrorMessage }
    else .error e

/-- The whole of `apiCall`, as a function of the fetch outcome. -/
def apiCall (outcome : FetchOutcome) : ApiResult :=
  applyCatch (apiCallTry outcome)

/-! Local persisted collections: templates and saved senders. -/

/-- A message template (`interface Template`). -/
structure Template where
  id : String
  name : String
  subject : String
  body : String
deriving Repr, DecidableEq

/-- A saved sender credential (`interface Sender`), with optional password. -/
structure Sender where
  email : String
  password : Option String
deriving Repr, DecidableEq

/-- JavaScript `Array.prototype.findIndex` specialised to a boolean test. -/
def jsFindIndex {α : Type} (p : α → Bool) : List α → Option Nat
  | [] => none
  | x :: xs => if p x then some 0 else Option.map (· + 1) (jsFindIndex p xs)

/-- The function `saveTemplate` of the Schedule panel: rejects an empty name,
otherwise appends one entry with id `Date.now().toString()` (`now` is the
current epoch-millisecond timestamp). -/
def saveTemplate (templates : List Template) (name subject body : String)
    (now : Nat) : List Template :=
  if name == "" then templates
  else templates ++ [{ id := toString now, name := name, subject := subject, body := body }]

/-- The function `saveSenderProfile`: rejects an empty email; replaces the
first entry with the same email in place when one exists, else appends. -/
def saveSenderProfile (savedSenders : List Sender) (sender : Sender) : List Sender :=
  if sender.email == "" then savedSenders
  else
    match jsFindIndex (fun s => s.email == sender.email) savedSenders with
    | some i => savedSenders.set i sender
    | none => savedSenders ++ [sender]

/-- JSON encoding of one template, as `JSON.stringify` lays it out. -/
def templateToJson (t : Template) : JVal :=
  .jobj [("id", .jstr t.id), ("name", .jstr t.name),
         ("subject", .jstr t.subject), ("body", .jstr t.body)]

/-- JSON encoding of the template collection written to
`localStorage.setItem('emailTemplates', JSON.stringify(updated))`. -/
def templatesToJson (ts : List Template) : JVal :=
  .jarr (ts.map templateToJson)

/-- Reading one template back from its parsed JSON object. -/
def jsonToTemplate (v : JVal) : Option Template :=
  match v with
  | .jobj fields =>
    match jsGet fields "id", jsGet fields "name",
          jsGet fields "subject", jsGet fields "body" with
    | some (.jstr i), some (.jstr n), some (.jstr s), some (.jstr b) =>
      some { id := i, name := n, subject := s, body := b }
    | _, _, _, _ => none
  | _ => none

/-- Reading a list of templates back element by element. -/
def jsonToTemplateList : List JVal → Option (List Template)
  | [] => some []
  | x :: xs =>
    match jsonToTemplate x, jsonToTemplateList xs with
    | some t, some ts => some (t :: ts)
    | _, _ => none

/-- Reading the template collection back from parsed JSON, as the mount-time
`JSON.parse(savedTemplates)` load does. -/
def jsonToTemplates (v : JVal) : Option (List Template) :=
  match v with
  | .jarr xs => jsonToTemplateList xs
  | _ => none

/-! Timestamp normalisation and body wrapping shared by the submit handlers. -/

/-- JavaScript `replace('T', ' ')` with a single-character string pattern:
only the first occurrence is replaced. -/
def replaceFirstChar : List Char → Char → Char → List Char
  | [], _, _ => []
  | c :: rest, pat, rep =>
    if c == pat then rep :: rest else c :: replaceFirstChar rest pat rep

/-- The timestamp normalisation `s.replace('T', ' ').substring(0, 16)`. -/
def normalizeDateTime (s : String) : String :=
  String.mk ((replaceFirstChar s.data 'T' ' ').take 16)

/-- Replacement of every occurrence of a character by a string, at the
character-list level (the semantics of a global single-character regex). -/
def replaceCharAll (pat : Char) (rep : List Char) : List Char → List Char
  | [] => []
  | c :: rest =>
    if c == pat then rep ++ replaceCharAll pat rep rest
    else c :: replaceCharAll pat rep rest

/-- The HTML envelope applied to the template body before transmission:
`"<html><body>" + body.replace(/\n/g, '<br/>') + "</body></html>"`. -/
def wrapBody (body : String) : String :=
  "<html><body>" ++ String.mk (replaceCharAll '\n' "<br/>".data body.data) ++ "</body></html>"

/-! The Schedule panel submit handler (`ScheduleEmails.handleSubmit`). -/

/-- A receiver row of the Schedule panel (`interface Receiver`). -/
structure Receiver where
  receiverMail : String
  receiverDomain : String
  receiverName : String
  scheduledDateTime : String
deriving Repr, DecidableEq

/-- A sender as formatted into the payload:
`{ senderMail: s.email, smtp_password: s.password || "" }`. -/
structure FormattedSender where
  senderMail : String
  smtp_password : String
deriving Repr, DecidableEq

/-- Formatting one sender row for the payload. -/
def formatSender (s : Sender) : FormattedSender :=
  { senderMail := s.email, smtp_password := s.password.getD "" }

/-- A receiver as mapped into the payload of `/scheduleEmails`. -/
structure OutReceiver where
  receiverMail : String
  receiverDomain : String
  receiverName : String
  scheduledDateTime : String
deriving Repr, DecidableEq

/-- The mode toggle of the Schedule panel. -/
inductive ScheduleMode where
  | manual : ScheduleMode
  | csv : ScheduleMode
deriving Repr, DecidableEq

/-- The payload of a `/scheduleEmails` request. -/
structure SchedulePayload where
  senders : List FormattedSender
  subject : String
  body : String
  receivers : Option (List OutReceiver)
  receivers_csv_base64 : Option String
deriving Repr, DecidableEq

/-- Outcome of a Schedule-panel submit: an error thrown before the network
call (shown inline), or the network layer invoked with a payload. -/
inductive ScheduleOutcome where
  | thrown : String → ScheduleOutcome
  | apiInvoked : String → SchedulePayload → ScheduleOutcome
deriving Repr, DecidableEq

/-- Mapping one kept receiver row into the payload (the `|| ""` defaults are
identities here since the row fields are strings). -/
def mapReceiver (r : Receiver) : OutReceiver :=
  { receiverMail := r.receiverMail, receiverDomain := r.receiverDomain,
    receiverName := r.receiverName,
    scheduledDateTime := normalizeDateTime r.scheduledDateTime }

/-- The submit handler of the Schedule panel, up to the point where `apiCall`
is invoked; `csvFile` carries the base64 encoding of the selected file. -/
def scheduleHandleSubmit (subject body : String) (senders : List Sender)
    (mode : ScheduleMode) (receivers : List Receiver)
    (csvFile : Option String) : ScheduleOutcome :=
  if subject == "" || body == "" then .thrown "Template required."
  else
    let formattedSenders := senders.map formatSender
    match mode with
    | .manual =>
      let kept := receivers.filter
        (fun r => r.receiverMail != "" && r.scheduledDateTime != "")
      if kept.length == 0 then
        .thrown "Please add at least one valid receiver with a date."
      else
        .apiInvoked "/scheduleEmails"
          { senders := formattedSenders, subject := subject, body := wrapBody body,
            receivers := some (kept.map mapReceiver), receivers_csv_base64 := none }
    | .csv =>
      match csvFile with
      | none => .thrown "Please upload a CSV file."
      | some f =>
        .apiInvoked "/scheduleEmails"
          { senders := formattedSenders, subject := subject, body := wrapBody body,
            receivers := none, receivers_csv_base64 := some f }

/-! The Auto-Schedule panel submit handler (`AutoScheduler.handleSubmit`). -/

/-- The mode toggle of the Auto-Schedule panel. -/
inductive AutoMode where
  | manual : AutoMode
  | receiver_csv : AutoMode
  | full_csv : AutoMode
deriving Repr, DecidableEq

/-- A receiver row of the Auto-Schedule panel (no per-row timestamp). -/
structure AutoReceiver where
  receiverMail : String
  receiverDomain : String
  receiverName : String
deriving Repr, DecidableEq

/-- The sender card of the Auto-Schedule panel (both fields plain strings). -/
structure AutoSender where
  email : String
  password : String
deriving Repr, DecidableEq

/-- The payload of a `/scheduleEmails/auto` request. -/
structure AutoPayload where
  startDateTime : String
  gapMinutes : Int
  subject : String
  body : String
  sender : Option FormattedSender
  receivers : Option (List AutoReceiver)
  receivers_csv_base64 : Option String
  csv_base64 : Option String
deriving Repr, DecidableEq

/-- Outcome of an Auto-Schedule submit: an early validating return (before the
`try` block, network untouched), an error thrown inside the `try` block
(network untouched), or `apiCall` invoked with a payload. -/
inductive AutoOutcome where
  | validationError : String → AutoOutcome
  | thrown : String → AutoOutcome
  | apiInvoked : String → AutoPayload → AutoOutcome
deriving Repr, DecidableEq

/-- The submit handler of the Auto-Schedule panel, up to the point where
`apiCall` is invoked; `csvFile` carries the base64 encoding of the file. -/
def autoHandleSubmit (startDateTime : String) (gapMinutes : Int)
    (mode : AutoMode) (sender : AutoSender) (receivers : List AutoReceiver)
    (csvFile : Option String) (subject body : String) : AutoOutcome :=
  if startDateTime == "" then .validationError "Start Date & Time is required"
  else if gapMinutes < 1 || gapMinutes > 60 then
    .validationError "Gap Minutes must be between 1 and 60"
  else
    let base : AutoPayload :=
      { startDateTime := normalizeDateTime startDateTime, gapMinutes := gapMinutes,
        subject := subject, body := wrapBody body,
        sender := none, receivers := none,
        receivers_csv_base64 := none, csv_base64 := none }
    match mode with
    | .manual =>
      .apiInvoked "/scheduleEmails/auto"
        { base with
          sender := some { senderMail := sender.email, smtp_password := sender.password },
          receivers := some (receivers.filter (fun r => r.receiverMail != "")) }
    | .receiver_csv =>
      match csvFile with
      | none => .thrown "Please upload receivers CSV"
      | some f =>
        .apiInvoked "/scheduleEmails/auto"
          { base with
            sender := some { senderMail := sender.email, smtp_password := sender.password },
            receivers_csv_base64 := some f }
    | .full_csv =>
      match csvFile with
      | none => .thrown "Please upload full CSV"
      | some f => .apiInvoked "/scheduleEmails/auto" { base with csv_base64 := some f }

/-! The Domain Manager verification request (`handleRequestVerification`). -/

/-- The fixed client-side blocklist of public email providers. -/
def blockedDomains : List String :=
  ["gmail.com", "yahoo.com", "outlook.com", "hotmail.com",
   "icloud.com", "aol.com", "live.com", "msn.com"]

/-- JavaScript `String.prototype.split` with a one-character separator,
at the character-list level; an empty input yields one empty part. -/
def splitChar (sep : Char) : List Char → List (List Char)
  | [] => [[]]
  | c :: rest =>
    let ps := splitChar sep rest
    if c == sep then [] :: ps
    else
      match ps with
      | [] => [[c]]
      | p :: rest2 => (c :: p) :: rest2

/-- JavaScript `newEmail.split(sep)` over Lean strings. -/
def jsSplit (s : String) (sep : Char) : List String :=
  (splitChar sep s.data).map String.mk

/-- ASCII lower-casing of one character, as `toLowerCase` acts on the
domain strings compared here. -/
def asciiLower (c : Char) : Char :=
  if 'A' ≤ c && c ≤ 'Z' then Char.ofNat (c.toNat + 32) else c

/-- ASCII lower-casing of a string (`emailDomain.toLowerCase()`). -/
def asciiLowerStr (s : String) : String :=
  String.mk (s.data.map asciiLower)

/-- Outcome of a verification request: silently ignored (empty input),
rejected for format, rejected as a public domain, or the endpoint called. -/
inductive DomainOutcome where
  | noop : DomainOutcome
  | invalidFormat : DomainOutcome
  | publicDomainRejected : DomainOutcome
  | apiInvoked : String → String → DomainOutcome
deriving Repr, DecidableEq

/-- The `handleRequestVerification` handler of the Domain Manager, up to the
point where `apiCall` is invoked with `{ sender_email: newEmail }`. -/
def handleRequestVerification (newEmail : String) : DomainOutcome :=
  if newEmail == "" then .noop
  else
    let emailParts := jsSplit newEmail '@'
    match emailParts with
    | [] => .invalidFormat
    | [_] => .invalidFormat
    | _ :: emailDomain :: _ =>
      if blockedDomains.contains (asciiLowerStr emailDomain) then .publicDomainRejected
      else .apiInvoked "/domains/request-verification" newEmail

/-! The User Stats panel: log selection state. -/

/-- An email log row (`interface EmailLog`). -/
structure EmailLog where
  logId : String
  job_id : String
  senderMail : String
  receiverMail : String
  status : String
  scheduled_at : String
  executed_at : Option String
  error : Option String
  created_at : String
deriving Repr, DecidableEq

/-- The `toggleSelect` handler: removes an id already selected, else appends it. -/
def toggleSelect (selectedIds : List String) (id : String) : List String :=
  if selectedIds.contains id then selectedIds.filter (fun i => i != id)
  else selectedIds ++ [id]

/-- The `toggleSelectAll` handler: clears the selection when
`selectedIds.length === logs.length`, else selects every loaded log id. -/
def toggleSelectAll (selectedIds : List String) (logs : List EmailLog) : List String :=
  if selectedIds.length == logs.length then []
  else logs.map (fun l => l.logId)

/-- Modelled from the spec: "toggling select-all is a set-equality check
against the full id list" — clear the selection when the selected-id set
equals the set of all loaded log ids, else select the full id list. This is
the spec-side definition, compared against `toggleSelectAll` from the source. -/
def specToggleSelectAll (selectedIds : List String) (logs : List EmailLog) : List String :=
  let ids := logs.map (fun l => l.logId)
  if (ids.all (fun i => selectedIds.contains i) &&
      selectedIds.all (fun i => ids.contains i)) then []
  else ids

/-- The User Stats panel state relevant to selection: the loaded logs and the
selected-id list. -/
structure StatsState where
  logs : List EmailLog
  selectedIds : List String
deriving Repr, DecidableEq

/-- A user interaction in the User Stats panel that touches logs or selection. -/
inductive StatsEvent where
  | select : String → StatsEvent
  | selectAll : StatsEvent
  | deleteSingle : String → StatsEvent
  | deleteBulk : StatsEvent
  | deleteAll : StatsEvent
deriving Repr, DecidableEq

/-- One step of the User Stats panel. A row checkbox exists only for loaded
logs; `deleteSingle` and `deleteAll` re-fetch the logs without touching
`selectedIds` (the code clears the selection only in `handleDeleteBulk`). -/
def statsStep (s : StatsState) (e : StatsEvent) : StatsState :=
  match e with
  | .select id =>
    if (s.logs.map (fun l => l.logId)).contains id then
      { s with selectedIds := toggleSelect s.selectedIds id }
    else s
  | .selectAll => { s with selectedIds := toggleSelectAll s.selectedIds s.logs }
  | .deleteSingle id =>
    { s with logs := s.logs.filter (fun l => l.logId != id) }
  | .deleteBulk =>
    if s.selectedIds.isEmpty then s
    else
      { logs := s.logs.filter (fun l => !s.selectedIds.contains l.logId),
        selectedIds := [] }
  | .deleteAll => { s with logs := [] }

/-- Reachability of a panel state from the mount-time state (logs as fetched,
empty selection) through user interactions. -/
inductive StatsReachable (initialLogs : List EmailLog) : StatsState → Prop
  | init : StatsReachable initialLogs { logs := initialLogs, selectedIds := [] }
  | step (s : StatsState) (e : StatsEvent) :
      StatsReachable initialLogs s → StatsReachable initialLogs (statsStep s e)

/-- A sample email log used to instantiate the User Stats selection claims. -/
def sampleLog (i : String) : EmailLog :=
  { logId := i, job_id := "job-1", senderMail := "s@x.com", receiverMail := "r@y.com",
    status := "sent", scheduled_at := "2025-01-01 10:00", executed_at := none,
    error := none, created_at := "2025-01-01 09:00" }

/-- A 500 response whose JSON body is `{"error": "", "message": "boom"}`. -/
def resp500EmptyError : FetchResponse :=
  { status := 500, statusText := "Internal Server Error",
    contentType := some "application/json",
    jsonBody := .ok (.jobj [("error", .jstr ""), ("message", .jstr "boom")]),
    textBody := "" }

/-- A 500 response whose JSON body is `{"error": "nope"}`. -/
def resp500Nope : FetchResponse :=
  { status := 500, statusText := "Internal Server Error",
    contentType := some "application/json",
    jsonBody := .ok (.jobj [("error", .jstr "nope")]),
    textBody := "" }

/-- A 200 response whose JSON body is `{"ok": true}`. -/
def resp200Json : FetchResponse :=
  { status := 200, statusText := "OK",
    contentType := some "application/json; charset=utf-8",
    jsonBody := .ok (.jobj [("ok", .jbool true)]),
    textBody := "" }

/-- A 500 response whose JSON body is `{"error": "Failed to fetch"}`. -/
def resp500FailedFetch : FetchResponse :=
  { status := 500, statusText := "Internal Server Error",
    contentType := some "application/json",
    jsonBody := .ok (.jobj [("error", .jstr "Failed to fetch")]),
    textBody := "" }

/-! Helper lemmas. -/

theorem startsWithChars_iff (pat s : List Char) :
    startsWithChars pat s = true ↔ ∃ post, s = pat ++ post := by
  induction pat generalizing s with
  | nil => simp [startsWithChars]
  | cons p ps ih =>
    cases s with
    | nil => simp [startsWithChars]
    | cons c cs =>
      simp only [startsWithChars, Bool.and_eq_true, beq_iff_eq, ih, List.cons_append,
        List.cons.injEq]
      constructor
      · rintro ⟨rfl, post, rfl⟩
        exact ⟨post, rfl, rfl⟩
      · rintro ⟨post, rfl, rfl⟩
        exact ⟨rfl, post, rfl⟩

theorem containsSub_iff (pat s : List Char) :
    containsSub pat s = true ↔ ∃ pre post, s = pre ++ pat ++ post := by
  induction s with
  | nil =>
    simp only [containsSub, startsWithChars_iff]
    constructor
    · rintro ⟨post, h⟩
      exact ⟨[], post, h⟩
    · rintro ⟨pre, post, h⟩
      rcases pre with _ | ⟨c, cs⟩
      · exact ⟨post, h⟩
      · simp at h
  | cons c cs ih =>
    simp only [containsSub, Bool.or_eq_true, startsWithChars_iff, ih]
    constructor
    · rintro (⟨post, h⟩ | ⟨pre, post, h⟩)
      · exact ⟨[], post, by simpa using h⟩
      · exact ⟨c :: pre, post, by simp [h]⟩
    · rintro ⟨pre, post, h⟩
      rcases pre with _ | ⟨d, ds⟩
      · exact Or.inl ⟨post, by simpa using h⟩
      · simp only [List.cons_append, List.cons.injEq] at h
        exact Or.inr ⟨ds, post, h.2⟩

theorem contentTypeIsJson_iff (s : String) :
    contentTypeIsJson (some s) = true ↔
      ∃ pre post : String, s = pre ++ "application/json" ++ post := by
  simp only [contentTypeIsJson, containsSub_iff]
  constructor
  · rintro ⟨pre, post, h⟩
    refine ⟨String.mk pre, String.mk post, String.ext ?_⟩
    simpa [String.data_append] using h
  · rintro ⟨pre, post, rfl⟩
    exact ⟨pre.data, post.data, by simp [String.data_append]⟩

theorem jsFindIndex_eq_none {α : Type} (p : α → Bool) (l : List α) :
    jsFindIndex p l = none ↔ ∀ x ∈ l, p x = false := by
  induction l with
  | nil => simp [jsFindIndex]
  | cons x xs ih =>
    constructor
    · intro h y hy
      by_cases hx : p x = true
      · rw [jsFindIndex] at h
        simp [hx] at h
      · have hx2 : p x = false := by simpa using hx
        rw [jsFindIndex] at h
        simp only [hx2, Bool.false_eq_true, if_false, Option.map_eq_none'] at h
        rcases List.mem_cons.mp hy with rfl | hy2
        · exact hx2
        · exact (ih.mp h) y hy2
    · intro h
      have hx : p x = false := h x (by simp)
      have hxs : jsFindIndex p xs = none := ih.mpr (fun y hy => h y (by simp [hy]))
      simp [jsFindIndex, hx, hxs]

theorem jsFindIndex_spec {α : Type} (p : α → Bool) (l : List α) (i : Nat)
    (h : jsFindIndex p l = some i) :
    ∃ hi : i < l.length, p (l.get ⟨i, hi⟩) = true := by
  induction l generalizing i with
  | nil => simp [jsFindIndex] at h
  | cons x xs ih =>
    rw [jsFindIndex] at h
    by_cases hx : p x = true
    · simp only [hx, if_true, Option.some.injEq] at h
      subst h
      exact ⟨Nat.succ_pos _, by simpa using hx⟩
    · have hx2 : p x = false := by simpa using hx
      simp only [hx2, Bool.false_eq_true, if_false, Option.map_eq_some'] at h
      obtain ⟨j, hj, hji⟩ := h
      subst hji
      obtain ⟨hjlt, hjp⟩ := ih j hj
      exact ⟨Nat.succ_lt_succ hjlt, by simpa using hjp⟩

/-- Recursive reformulation of the upsert of `saveSenderProfile`, used to
reason by induction. -/
def upsertRec (s : Sender) : List Sender → List Sender
  | [] => [s]
  | x :: xs => if x.email == s.email then s :: xs else x :: upsertRec s xs

theorem saveSenderProfile_eq_upsertRec (s : Sender) (hne : s.email ≠ "")
    (l : List Sender) : saveSenderProfile l s = upsertRec s l := by
  induction l with
  | nil => simp [saveSenderProfile, upsertRec, jsFindIndex, hne]
  | cons x xs ih =>
    by_cases hx : x.email == s.email
    · simp [saveSenderProfile, jsFindIndex, hne, hx, upsertRec]
    · rw [saveSenderProfile, if_neg (by simpa using hne)] at ih ⊢
      rw [jsFindIndex]
      rw [if_neg (by simpa using hx)]
      rw [upsertRec, if_neg (by simpa using hx)]
      cases hfind : jsFindIndex (fun t => t.email == s.email) xs with
      | none =>
        rw [hfind] at ih
        simp only [hfind, Option.map_none']
        simpa [List.cons_append] using congrArg (x :: ·) ih
      | some i =>
        rw [hfind] at ih
        simp only [hfind, Option.map_some']
        simpa [List.set] using congrArg (x :: ·) ih

theorem upsertRec_countP_eq_one (s : Sender) (l : List Sender)
    (hcount : List.countP (fun x => x.email == s.email) l ≤ 1) :
    List.countP (fun x => decide (x = s)) (upsertRec s (upsertRec s l)) = 1 := by
  induction l with
  | nil => simp [upsertRec]
  | cons x xs ih =>
    by_cases hx : x.email == s.email
    · rw [upsertRec, if_pos hx, upsertRec, if_pos (by simp)]
      have hxs : List.countP (fun x => x.email == s.email) xs = 0 := by
        rw [List.countP_cons, if_pos hx] at hcount
        omega
      have : List.countP (fun x => decide (x = s)) xs = 0 := by
        rw [List.countP_eq_zero] at hxs ⊢
        intro a ha
        simp only [decide_eq_true_eq]
        intro rfl2
        exact hxs a ha (by simp [rfl2])
      simp [List.countP_cons, this]
    · have hcx : (x.email == s.email) = false := by simpa using hx
      rw [upsertRec, if_neg (by simp [hcx]), upsertRec, if_neg (by simp [hcx])]
      have hxs : List.countP (fun x => x.email == s.email) xs ≤ 1 := by
        rw [List.countP_cons, hcx] at hcount
        simpa using hcount
      have hxnes : ¬ (x = s) := by
        intro rfl2
        subst rfl2
        simp at hcx
      simp [List.countP_cons, hxnes, ih hxs]

theorem jsonToTemplate_roundTrip (t : Template) :
    jsonToTemplate (templateToJson t) = some t := rfl

theorem jsonToTemplates_roundTrip (ts : List Template) :
    jsonToTemplates (templatesToJson ts) = some ts := by
  induction ts with
  | nil => rfl
  | cons t rest ih =>
    simp only [templatesToJson, jsonToTemplates, List.map_cons, jsonToTemplateList,
      jsonToTemplate_roundTrip] at *
    simp [ih]

/-! Claim theorems. -/

/-- C3: for every call to `apiCall` in which the underlying fetch rejects with
a connectivity-style failure (a `TypeError`, as browsers raise for network
failures — no response obtained), the error thrown to the caller carries the
one fixed network-error message string, not the raw underlying error text. -/
theorem C3_network_failure_fixed_message (e : JsError) (hty : e.name = "TypeError") :
    apiCall (.failure e) = .error { name := "Error", message := networkErrorMessage } := by
  simp [apiCall, apiCallTry, applyCatch, hty]

/-- Witness for C3 at the concrete rejection Chrome produces. -/
theorem C3_network_failure_fixed_message_witness :
    apiCall (.failure { name := "TypeError", message := "Failed to fetch" }) =
      .error { name := "Error", message := networkErrorMessage } :=
  C3_network_failure_fixed_message { name := "TypeError", message := "Failed to fetch" } rfl

/-- C10: inside `apiCall`, the connectivity check is applied to every error
propagating out of the request/parse/status logic: any caught error whose
message is exactly "Failed to fetch" or whose name is "TypeError" is replaced
by the fixed network-error message, and all other errors are rethrown
unchanged. In particular a non-2xx response whose extracted body message
equals "Failed to fetch" is reported as the network-error message. -/
theorem C10_catch_all_rewrite (outcome : FetchOutcome) (e : JsError)
    (h : apiCallTry outcome = .error e) :
    (e.message = "Failed to fetch" ∨ e.name = "TypeError" →
      apiCall outcome = .error { name := "Error", message := networkErrorMessage })
    ∧ (e.message ≠ "Failed to fetch" → e.name ≠ "TypeError" →
      apiCall outcome = .error e) := by
  constructor
  · intro hcase
    rw [apiCall, h, applyCatch]
    rcases hcase with hm | hn
    · rw [if_pos (by simp [hm])]
    · rw [if_pos (by simp [hn])]
  · intro hm hn
    rw [apiCall, h, applyCatch, if_neg (by simp [hm, hn])]

/-- Witness for C10: a 500 response whose JSON body is
`{"error": "Failed to fetch"}` is reported with the network-error message,
not with the server's own text. -/
theorem C10_catch_all_rewrite_witness :
    apiCall (.success resp500FailedFetch) =
      .error { name := "Error", message := networkErrorMessage } :=
  (C10_catch_all_rewrite (.success resp500FailedFetch)
    { name := "Error", message := "Failed to fetch" } rfl).1 (Or.inl rfl)

/-- C1 counterexample: a non-2xx response whose JSON body contains an `error`
field does not always have that field's value thrown — with body
`{"error": "", "message": "boom"}` the (falsy) empty `error` value is skipped
and `"boom"` is thrown instead of `""`. -/
theorem C1_counterexample :
    apiCall (.success resp500EmptyError) = .error { name := "Error", message := "boom" }
    ∧ ("boom" : String) ≠ "" :=
  ⟨rfl, by decide⟩

/-- C1 (amended): for a non-2xx response the thrown message is the extracted
`errorMessage` (provided it is not the string "Failed to fetch", which the
catch clause rewrites), and the extraction takes, in priority order: a truthy
`error` field of a JSON object body, then a truthy `message` field, then a
non-empty string body, else the synthesized server-error string. -/
theorem C1_error_priority (res : FetchResponse) (data : Parsed)
    (hok : resOk res.status = false)
    (hparse : parseStep res = .ok data)
    (hnf : errorMessage data res.status res.statusText ≠ "Failed to fetch") :
    apiCall (.success res) =
      .error { name := "Error", message := errorMessage data res.status res.statusText }
    ∧ (∀ fields v, data = .json (.jobj fields) → jsGet fields "error" = some v →
        truthy v = true → errorMessage data res.status res.statusText = jsToString v)
    ∧ (∀ fields v, data = .json (.jobj fields) →
        Option.filter truthy (jsGet fields "error") = none →
        jsGet fields "message" = some v → truthy v = true →
        errorMessage data res.status res.statusText = jsToString v)
    ∧ (∀ s, objFieldTruthy data "error" = none → objFieldTruthy data "message" = none →
        stringSelf data = some s → errorMessage data res.status res.statusText = s)
    ∧ (objFieldTruthy data "error" = none → objFieldTruthy data "message" = none →
        stringSelf data = none →
        errorMessage data res.status res.statusText =
          "Server Error: " ++ toString res.status ++ " " ++ res.statusText) := by
  refine ⟨?_, ?_, ?_, ?_, ?_⟩
  · rw [apiCall, apiCallTry, hparse]
    simp only [hok, Bool.false_eq_true, if_false]
    rw [applyCatch, if_neg (by simp [hnf])]
  · rintro fields v rfl hget htruthy
    have hf : Option.filter truthy (jsGet fields "error") = some v := by
      rw [hget]
      simp [Option.filter, htruthy]
    simp [errorMessage, objFieldTruthy, isObjectType, objField, hf]
  · rintro fields v rfl hfilter hget htruthy
    have hf2 : Option.filter truthy (jsGet fields "message") = some v := by
      rw [hget]
      simp [Option.filter, htruthy]
    simp [errorMessage, objFieldTruthy, isObjectType, objField, hfilter, hf2]
  · intro s h1 h2 hs
    simp [errorMessage, h1, h2, hs]
  · intro h1 h2 h3
    simp [errorMessage, h1, h2, h3]

/-- Witness for C1: a 500 response with body `{"error": "nope"}` throws "nope". -/
theorem C1_error_priority_witness :
    apiCall (.success resp500Nope) = .error { name := "Error", message := "nope" } :=
  (C1_error_priority resp500Nope (.json (.jobj [("error", .jstr "nope")]))
    (by decide) rfl (by decide)).1

/-- C2: the body is parsed as JSON exactly when the declared content-type
header includes the substring "application/json" (a missing header parses as
text), and every successful (2xx) response returns the parsed body to the
caller unchanged — the JSON value itself, or the raw text. -/
theorem C2_parse_and_identity (res : FetchResponse) (h2xx : resOk res.status = true) :
    (∀ s : String, res.contentType = some s →
      (contentTypeIsJson res.contentType = true ↔
        ∃ pre post : String, s = pre ++ "application/json" ++ post))
    ∧ (res.contentType = none → contentTypeIsJson res.contentType = false)
    ∧ (contentTypeIsJson res.contentType = true →
        ∀ v, res.jsonBody = .ok v → apiCall (.success res) = .ok (.json v))
    ∧ (contentTypeIsJson res.contentType = false →
        apiCall (.success res) = .ok (.text res.textBody)) := by
  refine ⟨?_, ?_, ?_, ?_⟩
  · intro s h
    rw [h]
    exact contentTypeIsJson_iff s
  · rintro h
    rw [h]
    rfl
  · intro hct v hv
    simp [apiCall, apiCallTry, parseStep, hct, hv, h2xx, applyCatch]
  · intro hct
    simp [apiCall, apiCallTry, parseStep, hct, h2xx, applyCatch]

/-- Witness for C2: a 2xx JSON response returns its parsed JSON body as is. -/
theorem C2_parse_and_identity_witness :
    apiCall (.success resp200Json) = .ok (.json (.jobj [("ok", .jbool true)])) :=
  (C2_parse_and_identity resp200Json (by decide)).2.2.1 (by decide) _ rfl

/-- C4 counterexample: starting from a collection that already holds two
entries with email "a@b.com" and password "x", saving that sender twice does
not leave exactly one such entry — both duplicates persist. -/
theorem C4_counterexample :
    ¬ (List.countP (fun x => decide (x = Sender.mk "a@b.com" (some "x")))
        (saveSenderProfile
          (saveSenderProfile
            [Sender.mk "a@b.com" (some "x"), Sender.mk "a@b.com" (some "x")]
            (Sender.mk "a@b.com" (some "x")))
          (Sender.mk "a@b.com" (some "x"))) = 1) := by decide

/-- C4 (amended): saving a sender with a non-empty email replaces the first
entry with the same email in place (length unchanged) when one exists, and
appends otherwise; and on every starting collection in which that email
occurs at most once, saving the sender twice in succession leaves exactly
one stored entry equal to it. -/
theorem C4_saved_sender_upsert (l : List Sender) (s : Sender) (hne : s.email ≠ "") :
    ((∃ x ∈ l, x.email = s.email) →
      (saveSenderProfile l s).length = l.length ∧
      ∃ i, ∃ hi : i < l.length, (l.get ⟨i, hi⟩).email = s.email ∧
        saveSenderProfile l s = l.set i s)
    ∧ ((∀ x ∈ l, x.email ≠ s.email) → saveSenderProfile l s = l ++ [s])
    ∧ (List.countP (fun x => x.email == s.email) l ≤ 1 →
      List.countP (fun x => decide (x = s))
        (saveSenderProfile (saveSenderProfile l s) s) = 1) := by
  have hne2 : (s.email == "") = false := by simpa using hne
  refine ⟨?_, ?_, ?_⟩
  · intro hex
    cases hfind : jsFindIndex (fun x => x.email == s.email) l with
    | none =>
      obtain ⟨x, hx, hxe⟩ := hex
      have := (jsFindIndex_eq_none (fun x => x.email == s.email) l).mp hfind x hx
      simp [hxe] at this
    | some i =>
      have hsave : saveSenderProfile l s = l.set i s := by
        rw [saveSenderProfile, hne2]
        simp only [Bool.false_eq_true, if_false, hfind]
      obtain ⟨hi, hp⟩ := jsFindIndex_spec (fun x => x.email == s.email) l i hfind
      exact ⟨by rw [hsave, List.length_set], i, hi, by simpa using hp, hsave⟩
  · intro hall
    have hfind : jsFindIndex (fun x => x.email == s.email) l = none :=
      (jsFindIndex_eq_none _ l).mpr (fun x hx => by simp [hall x hx])
    rw [saveSenderProfile, hne2]
    simp only [Bool.false_eq_true, if_false, hfind]
  · intro hc
    rw [saveSenderProfile_eq_upsertRec s hne (saveSenderProfile l s),
      saveSenderProfile_eq_upsertRec s hne l]
    exact upsertRec_countP_eq_one s l hc

/-- Witness for C4: saving `{email: "a@b.com", password: "x"}` twice onto a
one-entry collection with a different email leaves exactly one such entry. -/
theorem C4_saved_sender_upsert_witness :
    List.countP (fun x => decide (x = Sender.mk "a@b.com" (some "x")))
      (saveSenderProfile
        (saveSenderProfile [Sender.mk "c@d.com" none] (Sender.mk "a@b.com" (some "x")))
        (Sender.mk "a@b.com" (some "x"))) = 1 :=
  (C4_saved_sender_upsert [Sender.mk "c@d.com" none] (Sender.mk "a@b.com" (some "x"))
    (by decide)).2.2 (by decide)

/-- C5 counterexample: the generated id is `Date.now().toString()` with no
uniqueness check — saving a template in the same millisecond (`now = 5`) as
an existing entry with id "5" produces a second entry with the same id, so
the freshly generated id is not unique in the collection. -/
theorem C5_counterexample :
    saveTemplate [Template.mk "5" "Old" "s" "b"] "Promo" "Hi" "Hello" 5 =
      [Template.mk "5" "Old" "s" "b", Template.mk "5" "Promo" "Hi" "Hello"]
    ∧ (Template.mk "5" "Promo" "Hi" "Hello").id = (Template.mk "5" "Old" "s" "b").id :=
  ⟨by decide, rfl⟩

/-- C5 (amended): saving a template with a non-empty name appends exactly one
entry whose id is the decimal string of the save-time millisecond timestamp —
unique provided no existing entry carries that id — the collection's length
increases by exactly 1, and serializing to storage then reloading reproduces
the collection (hence its name, subject and body). -/
theorem C5_save_template (ts : List Template) (name subject body : String) (now : Nat)
    (hname : name ≠ "") :
    saveTemplate ts name subject body now =
      ts ++ [Template.mk (toString now) name subject body]
    ∧ (saveTemplate ts name subject body now).length = ts.length + 1
    ∧ jsonToTemplates (templatesToJson (saveTemplate ts name subject body now)) =
      some (saveTemplate ts name subject body now)
    ∧ ((∀ t ∈ ts, t.id ≠ toString now) →
      List.countP (fun t => t.id == toString now)
        (saveTemplate ts name subject body now) = 1) := by
  have h1 : saveTemplate ts name subject body now =
      ts ++ [Template.mk (toString now) name subject body] := by
    rw [saveTemplate, if_neg (by simpa using hname)]
  refine ⟨h1, by rw [h1]; simp, jsonToTemplates_roundTrip _, ?_⟩
  intro hfresh
  rw [h1, List.countP_append]
  have hz : List.countP (fun t => t.id == toString now) ts = 0 :=
    List.countP_eq_zero.mpr (fun t ht => by simp [hfresh t ht])
  simp [hz, List.countP_cons]

/-- Witness for C5: saving onto the empty collection yields one entry. -/
theorem C5_save_template_witness :
    (saveTemplate [] "Promo" "Hi" "Hello" 1700000000000).length = 1 :=
  (C5_save_template [] "Promo" "Hi" "Hello" 1700000000000 (by decide)).2.1

/-- C6: with a start timestamp set, an Auto-Schedule submission with
`gapMinutes < 1` or `gapMinutes > 60` is blocked with the range error and
never reaches `apiCall`, while any gap in `[1, 60]` passes the gap
validation (no validating early return occurs). -/
theorem C6_gap_validation (startDateTime : String) (gapMinutes : Int)
    (mode : AutoMode) (sender : AutoSender) (receivers : List AutoReceiver)
    (csvFile : Option String) (subject body : String)
    (hstart : startDateTime ≠ "") :
    ((gapMinutes < 1 ∨ gapMinutes > 60) →
      autoHandleSubmit startDateTime gapMinutes mode sender receivers csvFile subject body =
        .validationError "Gap Minutes must be between 1 and 60")
    ∧ ((gapMinutes < 1 ∨ gapMinutes > 60) →
      ∀ ep payload,
        autoHandleSubmit startDateTime gapMinutes mode sender receivers csvFile subject body ≠
          .apiInvoked ep payload)
    ∧ (1 ≤ gapMinutes → gapMinutes ≤ 60 →
      ∀ msg,
        autoHandleSubmit startDateTime gapMinutes mode sender receivers csvFile subject body ≠
          .validationError msg) := by
  have hstart2 : (startDateTime == "") = false := by simpa using hstart
  have hval : (gapMinutes < 1 ∨ gapMinutes > 60) →
      autoHandleSubmit startDateTime gapMinutes mode sender receivers csvFile subject body =
        .validationError "Gap Minutes must be between 1 and 60" := by
    intro hgap
    rw [autoHandleSubmit, hstart2]
    simp only [Bool.false_eq_true, if_false]
    rw [if_pos (by rcases hgap with h | h <;> simp [h])]
  refine ⟨hval, ?_, ?_⟩
  · intro hgap ep payload
    rw [hval hgap]
    simp
  · intro h1 h60 msg
    have hb : (gapMinutes < 1 || gapMinutes > 60) = false := by
      simp only [Bool.or_eq_false_iff, decide_eq_false_iff_not]
      omega
    rw [autoHandleSubmit, hstart2]
    simp only [Bool.false_eq_true, if_false, hb]
    cases mode <;> cases csvFile <;> simp

/-- Witness for C6: gap 0 with a start timestamp is blocked with the range
error, and gap 60 passes the gap validation. -/
theorem C6_gap_validation_witness :
    autoHandleSubmit "2025-01-01T10:00" 0 .manual (AutoSender.mk "" "") [] none "S" "B" =
      .validationError "Gap Minutes must be between 1 and 60"
    ∧ ∀ msg,
      autoHandleSubmit "2025-01-01T10:00" 60 .manual (AutoSender.mk "" "") [] none "S" "B" ≠
        .validationError msg :=
  ⟨(C6_gap_validation "2025-01-01T10:00" 0 .manual (AutoSender.mk "" "") [] none "S" "B"
      (by decide)).1 (Or.inl (by decide)),
   (C6_gap_validation "2025-01-01T10:00" 60 .manual (AutoSender.mk "" "") [] none "S" "B"
      (by decide)).2.2 (by decide) (by decide)⟩

/-- C7: for a non-empty email of the form `local@domain`, the Domain Manager
verification request is rejected client-side (no network call) when the
lower-cased domain is one of the eight public providers, and otherwise calls
the verification endpoint with the email. -/
theorem C7_domain_blocklist (newEmail localPart domainPart : String)
    (hne : newEmail ≠ "")
    (hsplit : jsSplit newEmail '@' = [localPart, domainPart]) :
    (blockedDomains.contains (asciiLowerStr domainPart) = true →
      handleRequestVerification newEmail = .publicDomainRejected)
    ∧ (blockedDomains.contains (asciiLowerStr domainPart) = false →
      handleRequestVerification newEmail =
        .apiInvoked "/domains/request-verification" newEmail) := by
  have hne2 : (newEmail == "") = false := by simpa using hne
  constructor
  · intro hblk
    rw [handleRequestVerification, hne2]
    simp only [Bool.false_eq_true, if_false, hsplit, hblk, if_true]
  · intro hblk
    rw [handleRequestVerification, hne2]
    simp only [Bool.false_eq_true, if_false, hsplit, hblk]

/-- Witness for C7: `user@GMail.COM` is rejected as a public domain and
`user@customdomain.com` proceeds to the verification endpoint. -/
theorem C7_domain_blocklist_witness :
    handleRequestVerification "user@GMail.COM" = .publicDomainRejected
    ∧ handleRequestVerification "user@customdomain.com" =
      .apiInvoked "/domains/request-verification" "user@customdomain.com" :=
  ⟨(C7_domain_blocklist "user@GMail.COM" "user" "GMail.COM" (by decide) (by decide)).1
      (by decide),
   (C7_domain_blocklist "user@customdomain.com" "user" "customdomain.com" (by decide)
      (by decide)).2 (by decide)⟩

/-- C8: a manual-mode Schedule submission with non-empty subject and body is
blocked with the "no valid receiver" error (and never reaches `apiCall`)
exactly when no receiver row has both a non-empty email and a non-empty
timestamp; otherwise `apiCall` receives exactly the rows that have both
fields, the others filtered out. -/
theorem C8_manual_receivers (subject body : String) (senders : List Sender)
    (receivers : List Receiver) (csvFile : Option String)
    (hsub : subject ≠ "") (hbody : body ≠ "") :
    ((∀ r ∈ receivers, r.receiverMail = "" ∨ r.scheduledDateTime = "") →
      scheduleHandleSubmit subject body senders .manual receivers csvFile =
        .thrown "Please add at least one valid receiver with a date.")
    ∧ ((∃ r ∈ receivers, r.receiverMail ≠ "" ∧ r.scheduledDateTime ≠ "") →
      scheduleHandleSubmit subject body senders .manual receivers csvFile =
        .apiInvoked "/scheduleEmails"
          { senders := senders.map formatSender, subject := subject,
            body := wrapBody body,
            receivers := some ((receivers.filter
              (fun r => r.receiverMail != "" && r.scheduledDateTime != "")).map
                mapReceiver),
            receivers_csv_base64 := none }) := by
  have hsb : (subject == "" || body == "") = false := by simp [hsub, hbody]
  constructor
  · intro hall
    have hfil : receivers.filter
        (fun r => r.receiverMail != "" && r.scheduledDateTime != "") = [] := by
      rw [List.filter_eq_nil_iff]
      intro r hr
      rcases hall r hr with h | h <;> simp [h]
    rw [scheduleHandleSubmit, hsb]
    simp only [Bool.false_eq_true, if_false, hfil]
    rfl
  · intro hex
    have hfil : receivers.filter
        (fun r => r.receiverMail != "" && r.scheduledDateTime != "") ≠ [] := by
      obtain ⟨r, hr, h1, h2⟩ := hex
      intro hnil
      have := List.filter_eq_nil_iff.mp hnil r hr
      simp [h1, h2] at this
    have hlen : ((receivers.filter
        (fun r => r.receiverMail != "" && r.scheduledDateTime != "")).length == 0) =
          false := by
      simpa [List.length_eq_zero] using hfil
    rw [scheduleHandleSubmit, hsb]
    simp only [Bool.false_eq_true, if_false, hlen]

/-- Witness for C8: one valid row and one row missing its timestamp — the
payload keeps exactly the valid row. -/
theorem C8_manual_receivers_witness :
    scheduleHandleSubmit "S" "B" [] .manual
      [Receiver.mk "r@y.com" "" "" "2025-01-01T10:00", Receiver.mk "q@y.com" "" "" ""]
      none =
    .apiInvoked "/scheduleEmails"
      { senders := [], subject := "S", body := wrapBody "B",
        receivers := some [OutReceiver.mk "r@y.com" "" "" "2025-01-01 10:00"],
        receivers_csv_base64 := none } := by
  have h := (C8_manual_receivers "S" "B" []
    [Receiver.mk "r@y.com" "" "" "2025-01-01T10:00", Receiver.mk "q@y.com" "" "" ""]
    none (by decide) (by decide)).2
    ⟨Receiver.mk "r@y.com" "" "" "2025-01-01T10:00", by simp, by decide, by decide⟩
  rw [h]
  decide

/-- C9 counterexample: the code decides select-all by comparing lengths, not
sets. From loaded logs [a, b], selecting b and then deleting row b (which
re-fetches the logs but leaves the selection untouched) reaches the state
with logs [a] and selection ["b"]; there the lengths agree so the toggle
clears the selection, while the claimed set-equality rule — the selected set
{b} differing from the loaded set {a} — would select the full id list. -/
theorem C9_counterexample :
    StatsReachable [sampleLog "a", sampleLog "b"]
      (StatsState.mk [sampleLog "a"] ["b"])
    ∧ toggleSelectAll ["b"] [sampleLog "a"] = []
    ∧ specToggleSelectAll ["b"] [sampleLog "a"] = ["a"]
    ∧ ([] : List String) ≠ ["a"] := by
  refine ⟨?_, by decide, by decide, by decide⟩
  have h0 : StatsReachable [sampleLog "a", sampleLog "b"]
      (StatsState.mk [sampleLog "a", sampleLog "b"] []) := StatsReachable.init
  have h1 := StatsReachable.step _ (StatsEvent.select "b") h0
  have h2 := StatsReachable.step _ (StatsEvent.deleteSingle "b") h1
  have he : statsStep (statsStep (StatsState.mk [sampleLog "a", sampleLog "b"] [])
      (StatsEvent.select "b")) (StatsEvent.deleteSingle "b") =
      StatsState.mk [sampleLog "a"] ["b"] := by decide
  rw [he] at h2
  exact h2

/-- C9 (amended): toggling select-all compares the LENGTH of the selection
with the length of the loaded log list — equal lengths clear the selection,
unequal lengths select every loaded id. On states where the selection is a
duplicate-free subset of the (duplicate-free) loaded ids this coincides with
the claimed set-equality rule, but not on every reachable state. -/
theorem C9_select_all_length_check (selectedIds : List String) (logs : List EmailLog) :
    (selectedIds.length = logs.length → toggleSelectAll selectedIds logs = [])
    ∧ (selectedIds.length ≠ logs.length →
      toggleSelectAll selectedIds logs = logs.map (fun l => l.logId))
    ∧ (selectedIds.Nodup → (logs.map (fun l => l.logId)).Nodup →
      (∀ i ∈ selectedIds, i ∈ logs.map (fun l => l.logId)) →
      toggleSelectAll selectedIds logs = specToggleSelectAll selectedIds logs) := by
  refine ⟨?_, ?_, ?_⟩
  · intro h
    rw [toggleSelectAll, if_pos (by simp [h])]
  · intro h
    rw [toggleSelectAll, if_neg (by simpa using h)]
  · intro hnd1 hnd2 hsub
    by_cases hlen : selectedIds.length = logs.length
    · have hsp : List.Subperm selectedIds (logs.map (fun l => l.logId)) :=
        List.subperm_of_subset hnd1 hsub
      have hperm : List.Perm selectedIds (logs.map (fun l => l.logId)) :=
        hsp.perm_of_length_le (by simp [hlen])
      have hcond : ((logs.map (fun l => l.logId)).all (fun i => selectedIds.contains i)
          && selectedIds.all (fun i => (logs.map (fun l => l.logId)).contains i))
            = true := by
        simp only [Bool.and_eq_true, List.all_eq_true]
        exact ⟨fun x hx => List.elem_iff.mpr (hperm.mem_iff.mpr hx),
          fun x hx => List.elem_iff.mpr (hperm.mem_iff.mp hx)⟩
      rw [toggleSelectAll, if_pos (by simp [hlen]), specToggleSelectAll]
      simp only [hcond, if_true]
    · have hcond : ((logs.map (fun l => l.logId)).all (fun i => selectedIds.contains i)
          && selectedIds.all (fun i => (logs.map (fun l => l.logId)).contains i))
            = false := by
        cases hco : ((logs.map (fun l => l.logId)).all (fun i => selectedIds.contains i)
            && selectedIds.all (fun i => (logs.map (fun l => l.logId)).contains i)) with
        | false => rfl
        | true =>
          exfalso
          rw [Bool.and_eq_true, List.all_eq_true, List.all_eq_true] at hco
          obtain ⟨ha, hb⟩ := hco
          have hs1 : (logs.map (fun l => l.logId)) ⊆ selectedIds :=
            fun x hx => List.elem_iff.mp (ha x hx)
          have hs2 : selectedIds ⊆ (logs.map (fun l => l.logId)) :=
            fun x hx => List.elem_iff.mp (hb x hx)
          have l1 := (List.subperm_of_subset hnd2 hs1).length_le
          have l2 := (List.subperm_of_subset hnd1 hs2).length_le
          exact hlen (Nat.le_antisymm (by simpa using l2) (by simpa using l1))
      rw [toggleSelectAll, if_neg (by simpa using hlen), specToggleSelectAll]
      simp only [hcond, Bool.false_eq_true, if_false]

/-- Witness for C9: one selected id against two loaded logs — lengths differ,
so the toggle selects both loaded ids. -/
theorem C9_select_all_length_check_witness :
    toggleSelectAll ["a"] [sampleLog "a", sampleLog "b"] = ["a", "b"] :=
  (C9_select_all_length_check ["a"] [sampleLog "a", sampleLog "b"]).2.1 (by decide)
